import Mathlib

/-!
Verification of the Intent & Relevance Engine of the `flask-backend/app.py`
shopping assistant.  Python strings are modelled as Lean `String`s (sequences
of code points); all text primitives (`lower`, `strip`, `split`, substring
containment, `title`) are defined below with the exact semantics of the
Python operations used by the source.  Scores, which the source computes in
floating point from the constants 0.2 / 0.3 / 0.4 / 0.5 / rating×0.1, are
represented exactly in hundredths (so 0.2 becomes 20 and the clamp `min(score,
1.0)` becomes `min score 100`); product ratings are stored in tenths.  All
price/score comparisons performed by the source are exact at this resolution,
so the integer embedding agrees with the float computation on every branch
the source takes.
-/

set_option maxRecDepth 100000

namespace WalmartApp

/-- ASCII whitespace recognised by Python `str.split()` / `str.strip()`. -/
def isSpaceChar (c : Char) : Bool :=
  c == ' ' || c == '\t' || c == '\n' || c == '\r' || c.toNat == 11 || c.toNat == 12

def isDigitChar (c : Char) : Bool := '0' ≤ c && c ≤ '9'

def isAlphaChar (c : Char) : Bool := ('a' ≤ c && c ≤ 'z') || ('A' ≤ c && c ≤ 'Z')

/-- ASCII lower-casing of one character, as Python `str.lower()` does on the
ASCII inputs used by the app. -/
def lowerChar (c : Char) : Char :=
  if 'A' ≤ c && c ≤ 'Z' then Char.ofNat (c.toNat + 32) else c

def upperChar (c : Char) : Char :=
  if 'a' ≤ c && c ≤ 'z' then Char.ofNat (c.toNat - 32) else c

/-- Python `s.lower()`. -/
def pyLower (s : String) : String := ⟨s.data.map lowerChar⟩

/-- Python `s.strip()`: drop whitespace from both ends. -/
def pyStrip (s : String) : String :=
  ⟨((s.data.dropWhile isSpaceChar).reverse.dropWhile isSpaceChar).reverse⟩

/-- Does the second list start with the first one? -/
def charsStart : List Char → List Char → Bool
  | [], _ => true
  | _ :: _, [] => false
  | a :: as, b :: bs => a == b && charsStart as bs

/-- Does `pat` occur as a contiguous sublist of `hay`? -/
def charsContain : List Char → List Char → Bool
  | [], pat => charsStart pat []
  | c :: t, pat => charsStart pat (c :: t) || charsContain t pat

/-- Python's `needle in hay` on strings. -/
def pyIn (needle hay : String) : Bool := charsContain hay.data needle.data

/-- Python `s.split()`: split on whitespace runs, dropping empty pieces. -/
def wordsAux : List Char → List Char → List String
  | [], acc => if acc.isEmpty then [] else [⟨acc.reverse⟩]
  | c :: cs, acc =>
    if isSpaceChar c then
      if acc.isEmpty then wordsAux cs [] else ⟨acc.reverse⟩ :: wordsAux cs []
    else wordsAux cs (c :: acc)

def pyWords (s : String) : List String := wordsAux s.data []

/-- Python `" ".join xs`. -/
def joinSpace : List String → String
  | [] => ""
  | [s] => s
  | s :: rest => s ++ " " ++ joinSpace rest

/-- Python `s.title()` on the ASCII strings used by the app: upper-case a
letter that starts a letter-run, lower-case the following letters. -/
def titleAux : Bool → List Char → List Char
  | _, [] => []
  | startOfWord, c :: cs =>
    if isAlphaChar c then
      (if startOfWord then upperChar c else lowerChar c) :: titleAux false cs
    else c :: titleAux true cs

def pyTitle (s : String) : String := ⟨titleAux true s.data⟩

def digitsToNat (ds : List Char) : Nat :=
  ds.foldl (fun a c => 10 * a + (c.toNat - 48)) 0

/-- Try to match, at the head of `s`, the literal `lit` followed by a
non-empty digit run; return the run's value. -/
def matchAfterLit (lit : List Char) (s : List Char) : Option Nat :=
  if charsStart lit s then
    let ds := (s.drop lit.length).takeWhile isDigitChar
    if ds.isEmpty then none else some (digitsToNat ds)
  else none

/-- Leftmost match of the regex `lit(\d+)` (one capture group), as
`re.search` finds it. -/
def scanLitNum (lit : List Char) : List Char → Option Nat
  | [] => matchAfterLit lit []
  | c :: t =>
    match matchAfterLit lit (c :: t) with
    | some n => some n
    | none => scanLitNum lit t

/-- Try to match, at the head of `s`, `lit`, digits, `mid`, digits. -/
def matchTwoAt (lit mid : List Char) (s : List Char) : Option (Nat × Nat) :=
  if charsStart lit s then
    let r1 := s.drop lit.length
    let d1 := r1.takeWhile isDigitChar
    if d1.isEmpty then none
    else
      let r2 := r1.dropWhile isDigitChar
      if charsStart mid r2 then
        let r3 := r2.drop mid.length
        let d2 := r3.takeWhile isDigitChar
        if d2.isEmpty then none else some (digitsToNat d1, digitsToNat d2)
      else none
  else none

/-- Leftmost match of the regex `lit(\d+)mid(\d+)` (two capture groups); since
`mid` starts with a non-digit, the greedy digit runs never backtrack, so this
scanner agrees with `re.search`. -/
def scanTwoNums (lit mid : List Char) : List Char → Option (Nat × Nat)
  | [] => matchTwoAt lit mid []
  | c :: t =>
    match matchTwoAt lit mid (c :: t) with
    | some p => some p
    | none => scanTwoNums lit mid t


/-! ## Data model (section 3 of the spec, from `app.py`) -/

/-- A catalog record from `get_mock_products` (`app.py:1478`).  `ratingTenths`
stores the rating in tenths (4.5 becomes 45). -/
structure Product where
  id : String
  name : String
  price : Nat
  category : String
  imageUrl : String
  description : String
  tags : List String
  stock : Nat
  ratingTenths : Nat
deriving DecidableEq, Repr

/-- A product together with the transient `relevance_score` the search paths
attach to it, in hundredths (1.0 becomes 100). -/
structure ScoredProduct where
  product : Product
  score : Nat
deriving DecidableEq, Repr

/-- One entry of the global `cart_items` list, as built by
`handle_add_to_cart` (`app.py:643`).  The wall-clock `added_at` timestamp is
presentation-only data and is not modelled. -/
structure CartItem where
  id : String
  name : String
  price : Nat
  imageUrl : String
  category : String
  quantity : Nat
deriving DecidableEq, Repr

/-- The `entities` dictionary produced by `extract_entities` (`app.py:271`). -/
structure EntitySet where
  category : Option String
  minPrice : Option Nat
  maxPrice : Option Nat
  brand : Option String
deriving DecidableEq, Repr

/-- The intent dictionary produced by `analyze_user_intent` (`app.py:238`);
confidence is stored in hundredths (0.8 becomes 80). -/
structure Intent where
  type : String
  confidenceHundredths : Nat
  entities : EntitySet
deriving DecidableEq, Repr

/-- A recommendation from `generate_smart_recommendations` (`app.py:753`): a
product dictionary extended with a `reason` string. -/
structure Recommendation where
  product : Product
  reason : String
deriving DecidableEq, Repr

/-! ## Static tables (verbatim from `app.py`) -/

/-- `intent_patterns` of `analyze_user_intent` (`app.py:243`), in dictionary
insertion order, which is the iteration order of the detection loop. -/
def intent_patterns : List (String × List String) := [
  ("greeting", ["hi", "hello", "hey", "good morning", "good evening", "good afternoon"]),
  ("add_to_cart", ["add to cart", "buy", "purchase", "order", "add this", "take this"]),
  ("cart_view", ["my cart", "cart", "what\x27s in cart", "show cart", "view cart"]),
  ("product_details", ["tell me more", "details", "specifications", "features", "info about"]),
  ("recommendations", ["recommend", "suggest", "what should i", "best for", "top rated"]),
  ("price_inquiry", ["price", "cost", "how much", "budget", "under", "below"]),
  ("compare", ["compare", "difference", "vs", "better than", "which is best"]),
  ("product_search", ["show me", "find", "search", "looking for", "need", "want", "get me"])]

/-- `category_keywords` of `extract_entities` (`app.py:277`), in insertion
order. -/
def category_keywords : List (String × List String) := [
  ("Electronics", ["phone", "smartphone", "mobile", "laptop", "computer", "headphones", "earphones", "speaker", "camera", "watch"]),
  ("Footwear", ["shoes", "sneakers", "running", "sports", "formal", "casual"]),
  ("Clothing", ["shirt", "t-shirt", "jeans", "pants", "dress", "kurta", "polo", "clothing"]),
  ("Home & Kitchen", ["air fryer", "fryer", "pan", "cookware", "kitchen", "appliance", "bulb", "fan"]),
  ("Beauty & Personal Care", ["face wash", "shampoo", "lipstick", "skincare", "cosmetics", "razor"]),
  ("Sports & Fitness", ["sports", "fitness", "gym", "yoga", "cricket", "football", "badminton", "dumbbells"]),
  ("Books & Stationery", ["book", "notebook", "pen", "pencil", "stationery", "novel"]),
  ("Toys & Baby Products", ["baby", "kids", "toys", "diapers", "children", "lego", "doll"]),
  ("Groceries", ["groceries", "food", "salt", "atta", "butter", "milk"])]

/-- `brands` of `extract_entities` (`app.py:315`). -/
def brands : List String :=
  ["nike", "adidas", "apple", "samsung", "sony", "dell", "hp", "lenovo", "philips", "bajaj"]

/-- Keyword buckets of `basic_product_search` (`app.py:459`). -/
def phone_keywords : List String :=
  ["phone", "mobile", "smartphone", "iphone", "galaxy", "samsung", "apple"]

def laptop_keywords : List String :=
  ["laptop", "computer", "notebook", "dell", "hp", "macbook"]

def headphone_keywords : List String :=
  ["headphone", "earphone", "airpod", "headset", "earbuds"]

/-- `complementary_rules` of `generate_smart_recommendations` (`app.py:758`),
with both nesting levels kept in insertion order. -/
def complementary_rules : List (String × List (String × List String)) := [
  ("Electronics", [
    ("phone", ["case", "charger", "headphones", "power bank"]),
    ("laptop", ["mouse", "keyboard", "bag", "external drive"]),
    ("headphones", ["case", "cable", "adapter"]),
    ("camera", ["memory card", "tripod", "case", "lens"])]),
  ("Clothing", [
    ("shirt", ["pants", "belt", "tie"]),
    ("jeans", ["shirt", "belt", "shoes"]),
    ("kurta", ["bottom", "dupatta"])]),
  ("Footwear", [
    ("shoes", ["socks", "shoe care", "insoles"]),
    ("sneakers", ["sports wear", "socks"])]),
  ("Home & Kitchen", [
    ("air fryer", ["oil", "recipes", "accessories"]),
    ("pan", ["oil", "spices", "utensils"])])]

/-! ## The mock catalog (`get_mock_products`, `app.py:1478`) -/

def sonyHeadphones : Product :=
  ⟨"prod_001", "Sony WH-CH720N Wireless Headphones", 2999, "Electronics", "https://images.unsplash.com/photo-1505740420928-5e560c06d30e?w=300",
   "Premium wireless noise-canceling headphones with 35-hour battery life",
   ["bluetooth", "wireless", "noise-canceling"], 50, 45⟩
def appleIphone15 : Product :=
  ⟨"prod_002", "Apple iPhone 15", 79999, "Electronics", "https://images.unsplash.com/photo-1592750475338-74b7b21085ab?w=300",
   "Latest iPhone with advanced camera system and A17 chip",
   ["smartphone", "apple", "camera"], 25, 48⟩

def mockProducts : List Product := [sonyHeadphones, appleIphone15] ++ [
  ⟨"prod_003", "Wireless Gaming Mouse", 1999, "Electronics", "https://images.unsplash.com/photo-1527864550417-7fd91fc51a46?w=300",
   "High-precision wireless gaming mouse with RGB lighting",
   ["gaming", "wireless", "precision"], 40, 44⟩,
  ⟨"prod_004", "Samsung Galaxy S24 Ultra", 84999, "Electronics", "https://images.unsplash.com/photo-1511707171634-5f897ff02aa9?w=300",
   "Flagship Android smartphone with 200MP camera",
   ["smartphone", "android", "camera"], 30, 47⟩,
  ⟨"prod_005", "Dell XPS 13 Laptop", 109999, "Electronics", "https://images.unsplash.com/photo-1517336714731-489689fd1ca8?w=300",
   "Ultra-thin laptop with Intel i7 processor",
   ["laptop", "dell", "ultrabook"], 20, 46⟩,
  ⟨"prod_006", "JBL Flip 6 Bluetooth Speaker", 8999, "Electronics", "https://images.unsplash.com/photo-1465101046530-73398c7f28ca?w=300",
   "Portable waterproof speaker with deep bass",
   ["speaker", "bluetooth", "portable"], 60, 44⟩,
  ⟨"prod_007", "Mi Smart Band 7", 3499, "Electronics", "https://images.unsplash.com/photo-1519125323398-675f0ddb6308?w=300",
   "Fitness tracker with heart rate monitor",
   ["fitness", "tracker", "smart"], 80, 43⟩,
  ⟨"prod_008", "Canon EOS 1500D DSLR Camera", 42999, "Electronics", "https://images.unsplash.com/photo-1519183071298-a2962be56693?w=300",
   "Entry-level DSLR with 24MP sensor",
   ["camera", "dslr", "canon"], 15, 45⟩,
  ⟨"prod_009", "Amazon Echo Dot (5th Gen)", 4499, "Electronics", "https://images.unsplash.com/photo-1515378791036-0648a3ef77b2?w=300",
   "Smart speaker with Alexa voice assistant",
   ["smart", "speaker", "alexa"], 70, 44⟩,
  ⟨"prod_010", "HP DeskJet 2331 Printer", 3999, "Electronics", "https://images.unsplash.com/photo-1519985176271-adb1088fa94c?w=300",
   "All-in-one color printer for home use",
   ["printer", "hp", "color"], 35, 42⟩,
  ⟨"prod_011", "Nike Air Max 270", 8995, "Footwear", "https://images.unsplash.com/photo-1542291026-7eec264c27ff?w=300",
   "Comfortable running shoes with Air Max technology",
   ["running", "sports", "comfortable"], 30, 43⟩,
  ⟨"prod_012", "Adidas Ultraboost 22", 12999, "Footwear", "https://images.unsplash.com/photo-1519864600265-abb23847ef2c?w=300",
   "High-performance running shoes with Boost cushioning",
   ["running", "adidas", "boost"], 25, 46⟩,
  ⟨"prod_013", "Puma Smash v2 Sneakers", 2999, "Footwear", "https://images.unsplash.com/photo-1519864600265-abb23847ef2c?w=300",
   "Classic sneakers for everyday wear",
   ["sneakers", "puma", "casual"], 40, 42⟩,
  ⟨"prod_014", "Skechers Go Walk 5", 4999, "Footwear", "https://images.unsplash.com/photo-1519864600265-abb23847ef2c?w=300",
   "Lightweight walking shoes with memory foam",
   ["walking", "skechers", "memory-foam"], 35, 44⟩,
  ⟨"prod_015", "Bata Formal Leather Shoes", 2599, "Footwear", "https://images.unsplash.com/photo-1519864600265-abb23847ef2c?w=300",
   "Elegant formal shoes for office wear",
   ["formal", "leather", "bata"], 20, 41⟩,
  ⟨"prod_016", "Cotton T-Shirt", 599, "Clothing", "https://images.unsplash.com/photo-1521572163474-6864f9cf17ab?w=300",
   "100% cotton comfortable t-shirt in various colors",
   ["cotton", "comfortable", "casual"], 75, 42⟩,
  ⟨"prod_017", "Levi\x27s 511 Slim Jeans", 2499, "Clothing", "https://images.unsplash.com/photo-1512436991641-6745cdb1723f?w=300",
   "Slim fit jeans for men",
   ["jeans", "levis", "slim-fit"], 50, 45⟩,
  ⟨"prod_018", "Raymond Formal Shirt", 1299, "Clothing", "https://images.unsplash.com/photo-1512436991641-6745cdb1723f?w=300",
   "Premium formal shirt for office wear",
   ["formal", "shirt", "raymond"], 40, 43⟩,
  ⟨"prod_019", "Allen Solly Polo T-Shirt", 899, "Clothing", "https://images.unsplash.com/photo-1512436991641-6745cdb1723f?w=300",
   "Classic polo t-shirt for men",
   ["polo", "allen-solly", "casual"], 60, 44⟩,
  ⟨"prod_020", "W Women Kurta", 1599, "Clothing", "https://images.unsplash.com/photo-1512436991641-6745cdb1723f?w=300",
   "Elegant kurta for women",
   ["kurta", "women", "w"], 45, 45⟩,
  ⟨"prod_021", "Instant Pasta - Maggi", 15, "Groceries", "https://images.unsplash.com/photo-1621996346565-e3dbc1ece3b1?w=300",
   "Quick 2-minute pasta with masala flavor",
   ["instant", "pasta", "quick-meal"], 100, 41⟩,
  ⟨"prod_022", "Tata Salt", 25, "Groceries", "https://images.unsplash.com/photo-1504674900247-0877df9cc836?w=300",
   "Iodized salt for daily use",
   ["salt", "tata", "groceries"], 200, 43⟩,
  ⟨"prod_023", "Aashirvaad Atta 5kg", 299, "Groceries", "https://images.unsplash.com/photo-1504674900247-0877df9cc836?w=300",
   "Whole wheat flour for soft rotis",
   ["atta", "wheat", "groceries"], 80, 44⟩,
  ⟨"prod_024", "Amul Butter 500g", 275, "Groceries", "https://images.unsplash.com/photo-1504674900247-0877df9cc836?w=300",
   "Fresh and creamy butter",
   ["butter", "amul", "dairy"], 60, 45⟩,
  ⟨"prod_025", "Nestle Everyday Milk Powder", 399, "Groceries", "https://images.unsplash.com/photo-1504674900247-0877df9cc836?w=300",
   "Milk powder for tea and coffee",
   ["milk", "powder", "nestle"], 90, 42⟩,
  ⟨"prod_026", "Philips HD9200 Air Fryer", 8999, "Home & Kitchen", "https://images.unsplash.com/photo-1519864600265-abb23847ef2c?w=300",
   "Healthy air fryer with rapid air technology, 4L capacity",
   ["air-fryer", "philips", "healthy-cooking", "kitchen"], 25, 46⟩,
  ⟨"prod_027", "Wonderchef Prato Air Fryer", 5999, "Home & Kitchen", "https://images.unsplash.com/photo-1519864600265-abb23847ef2c?w=300",
   "Compact air fryer with digital display, 3L capacity",
   ["air-fryer", "wonderchef", "compact", "digital"], 30, 44⟩,
  ⟨"prod_028", "Prestige Non-Stick Fry Pan", 799, "Home & Kitchen", "https://images.unsplash.com/photo-1519864600265-abb23847ef2c?w=300",
   "Durable non-stick fry pan for healthy cooking",
   ["fry-pan", "prestige", "non-stick"], 40, 43⟩,
  ⟨"prod_029", "Milton Thermosteel Flask 1L", 699, "Home & Kitchen", "https://images.unsplash.com/photo-1519864600265-abb23847ef2c?w=300",
   "Keeps beverages hot or cold for hours",
   ["flask", "milton", "thermosteel"], 35, 44⟩,
  ⟨"prod_030", "Cello Plastic Water Bottle Set", 349, "Home & Kitchen", "https://images.unsplash.com/photo-1519864600265-abb23847ef2c?w=300",
   "Set of 6 BPA-free water bottles",
   ["water-bottle", "cello", "plastic"], 50, 42⟩,
  ⟨"prod_031", "Bajaj Majesty Air Fryer", 4999, "Home & Kitchen", "https://images.unsplash.com/photo-1519864600265-abb23847ef2c?w=300",
   "Affordable air fryer with 2.5L capacity and preset cooking modes",
   ["air-fryer", "bajaj", "affordable", "preset-modes"], 35, 42⟩,
  ⟨"prod_032", "Philips LED Bulb 9W", 99, "Home & Kitchen", "https://images.unsplash.com/photo-1519864600265-abb23847ef2c?w=300",
   "Energy-saving LED bulb",
   ["led", "bulb", "philips"], 100, 45⟩,
  ⟨"prod_033", "Havells Ceiling Fan", 2499, "Home & Kitchen", "https://images.unsplash.com/photo-1519864600265-abb23847ef2c?w=300",
   "High-speed ceiling fan for cool air",
   ["fan", "havells", "ceiling"], 20, 43⟩,
  ⟨"prod_034", "Nivea Men Face Wash", 199, "Beauty & Personal Care", "https://images.unsplash.com/photo-1512436991641-6745cdb1723f?w=300",
   "Deep cleansing face wash for men",
   ["face-wash", "nivea", "men"], 60, 42⟩,
  ⟨"prod_035", "Lakme Absolute Lipstick", 499, "Beauty & Personal Care", "https://images.unsplash.com/photo-1512436991641-6745cdb1723f?w=300",
   "Long-lasting matte lipstick",
   ["lipstick", "lakme", "beauty"], 45, 44⟩,
  ⟨"prod_036", "Dove Intense Repair Shampoo", 349, "Beauty & Personal Care", "https://images.unsplash.com/photo-1512436991641-6745cdb1723f?w=300",
   "Shampoo for damaged hair",
   ["shampoo", "dove", "hair"], 70, 43⟩,
  ⟨"prod_037", "Gillette Fusion Razor", 299, "Beauty & Personal Care", "https://images.unsplash.com/photo-1512436991641-6745cdb1723f?w=300",
   "5-blade razor for smooth shave",
   ["razor", "gillette", "shave"], 55, 45⟩,
  ⟨"prod_038", "Himalaya Neem Face Pack", 199, "Beauty & Personal Care", "https://images.unsplash.com/photo-1512436991641-6745cdb1723f?w=300",
   "Herbal face pack for clear skin",
   ["face-pack", "himalaya", "herbal"], 40, 42⟩,
  ⟨"prod_039", "LEGO Classic Bricks Set", 1499, "Toys & Baby Products", "https://images.unsplash.com/photo-1519125323398-675f0ddb6308?w=300",
   "Creative building blocks for kids",
   ["lego", "blocks", "kids"], 30, 47⟩,
  ⟨"prod_040", "Hot Wheels Car Pack", 499, "Toys & Baby Products", "https://images.unsplash.com/photo-1519125323398-675f0ddb6308?w=300",
   "Set of 5 die-cast cars",
   ["hot-wheels", "cars", "toys"], 50, 45⟩,
  ⟨"prod_041", "Fisher-Price Baby Rattle", 199, "Toys & Baby Products", "https://images.unsplash.com/photo-1519125323398-675f0ddb6308?w=300",
   "Colorful rattle for infants",
   ["rattle", "fisher-price", "baby"], 60, 43⟩,
  ⟨"prod_042", "Barbie Dreamhouse Doll", 2999, "Toys & Baby Products", "https://images.unsplash.com/photo-1519125323398-675f0ddb6308?w=300",
   "Barbie doll with accessories",
   ["barbie", "doll", "toys"], 25, 46⟩,
  ⟨"prod_043", "Mee Mee Baby Diapers", 499, "Toys & Baby Products", "https://images.unsplash.com/photo-1519125323398-675f0ddb6308?w=300",
   "Pack of 40 ultra-soft diapers",
   ["diapers", "mee-mee", "baby"], 80, 44⟩,
  ⟨"prod_044", "The Alchemist by Paulo Coelho", 299, "Books & Stationery", "https://images.unsplash.com/photo-1519125323398-675f0ddb6308?w=300",
   "Inspirational novel",
   ["book", "alchemist", "paulo-coelho"], 40, 48⟩,
  ⟨"prod_045", "Classmate Spiral Notebook", 79, "Books & Stationery", "https://images.unsplash.com/photo-1519125323398-675f0ddb6308?w=300",
   "200 pages ruled notebook",
   ["notebook", "classmate", "stationery"], 100, 45⟩,
  ⟨"prod_046", "Faber-Castell Color Pencils", 199, "Books & Stationery", "https://images.unsplash.com/photo-1519125323398-675f0ddb6308?w=300",
   "Pack of 24 color pencils",
   ["color-pencils", "faber-castell", "stationery"], 60, 46⟩,
  ⟨"prod_047", "Camlin Geometry Box", 149, "Books & Stationery", "https://images.unsplash.com/photo-1519125323398-675f0ddb6308?w=300",
   "Complete geometry set for students",
   ["geometry-box", "camlin", "stationery"], 80, 44⟩,
  ⟨"prod_048", "Pilot V5 Hi-Tecpoint Pen", 35, "Books & Stationery", "https://images.unsplash.com/photo-1519125323398-675f0ddb6308?w=300",
   "Smooth writing pen",
   ["pen", "pilot", "stationery"], 120, 43⟩,
  ⟨"prod_049", "Yonex GR 303 Badminton Racquet", 599, "Sports & Fitness", "https://images.unsplash.com/photo-1519125323398-675f0ddb6308?w=300",
   "Lightweight racquet for beginners",
   ["badminton", "yonex", "sports"], 30, 45⟩,
  ⟨"prod_050", "Nivia Football Size 5", 499, "Sports & Fitness", "https://images.unsplash.com/photo-1519125323398-675f0ddb6308?w=300",
   "Durable football for outdoor play",
   ["football", "nivia", "sports"], 40, 44⟩,
  ⟨"prod_051", "Cosco Yoga Mat", 799, "Sports & Fitness", "https://images.unsplash.com/photo-1519125323398-675f0ddb6308?w=300",
   "Non-slip yoga mat for workouts",
   ["yoga-mat", "cosco", "fitness"], 50, 46⟩,
  ⟨"prod_052", "SG Cricket Bat", 1499, "Sports & Fitness", "https://images.unsplash.com/photo-1519125323398-675f0ddb6308?w=300",
   "English willow cricket bat",
   ["cricket-bat", "sg", "sports"], 20, 47⟩,
  ⟨"prod_053", "Decathlon Dumbbell Set 10kg", 1299, "Sports & Fitness", "https://images.unsplash.com/photo-1519125323398-675f0ddb6308?w=300",
   "Set of 2 dumbbells for home workouts",
   ["dumbbell", "decathlon", "fitness"], 25, 45⟩]

/-! ## Entity Extractor (`extract_entities`, `app.py:271`) -/

/-- `extract_entities`: category from the first `category_keywords` entry with
a substring hit, price bounds from the first of the five regex patterns that
matches (`under N` / `below N` / `less than N` set only `max_price`; `N to M`
and `between N and M` set both), brand from the first `brands` hit,
title-cased. -/
def extract_entities (msg : String) : EntitySet :=
  let ml := pyLower msg
  let category := (category_keywords.find? (fun ck => ck.2.any (fun k => pyIn k ml))).map (fun ck => ck.1)
  let priceBounds : Option (Option Nat × Nat) :=
    match scanLitNum "under ".data ml.data with
    | some n => some (none, n)
    | none =>
      match scanLitNum "below ".data ml.data with
      | some n => some (none, n)
      | none =>
        match scanLitNum "less than ".data ml.data with
        | some n => some (none, n)
        | none =>
          match scanTwoNums "".data " to ".data ml.data with
          | some ab => some (some ab.1, ab.2)
          | none => (scanTwoNums "between ".data " and ".data ml.data).map (fun ab => (some ab.1, ab.2))
  { category := category
    minPrice := priceBounds.bind (fun b => b.1)
    maxPrice := priceBounds.map (fun b => b.2)
    brand := (brands.find? (fun b => pyIn b ml)).map pyTitle }

/-! ## Intent Classifier (`analyze_user_intent`, `app.py:238`) -/

/-- Does the given table entry match the (already lower-cased and stripped)
message? -/
def intentMatches (m : String) (entry : String × List String) : Bool :=
  entry.2.any (fun pat => pyIn pat m)

/-- `analyze_user_intent`: lower-case and strip the message, return the first
`intent_patterns` entry with a pattern hit at confidence 0.8, else default to
`product_search` at confidence 0.6. -/
def analyze_user_intent (msg : String) : Intent :=
  let m := pyStrip (pyLower msg)
  match intent_patterns.find? (intentMatches m) with
  | some entry => ⟨entry.1, 80, extract_entities msg⟩
  | none => ⟨"product_search", 60, extract_entities msg⟩

/-! ## Relevance Scorer (`calculate_product_relevance`, `app.py:543`) -/

/-- The `product_text` string built at `app.py:547`. -/
def productText (p : Product) : String :=
  p.name ++ " " ++ p.description ++ " " ++ joinSpace p.tags

/-- `calculate_product_relevance`, in hundredths: 0.2 per matching query word
of length > 2, 0.4 for a category match, 0.3 / 0.2 for satisfied max/min
price bounds, 0.5 for a brand hit in the name, rating × 0.1 always, clamped
to 1.0 at the end. -/
def calculate_product_relevance (msg : String) (p : Product) (e : EntitySet) : Nat :=
  let userWords := pyWords (pyLower msg)
  let text := pyLower (productText p)
  let score := 20 * (userWords.filter (fun w => 2 < w.length && pyIn w text)).length
  let score := score + (match e.category with
    | some c => if pyLower c == pyLower p.category then 40 else 0
    | none => 0)
  let score := score + (match e.maxPrice with
    | some m => if p.price ≤ m then 30 else 0
    | none => 0)
  let score := score + (match e.minPrice with
    | some m => if m ≤ p.price then 20 else 0
    | none => 0)
  let score := score + (match e.brand with
    | some b => if pyIn (pyLower b) (pyLower p.name) then 50 else 0
    | none => 0)
  min (score + p.ratingTenths) 100

/-- The Relevance Scorer as section 4.3 of the spec words it: an additive
score, clamped to 1.0 at the end, of the six listed contributions.  Stated
independently of `calculate_product_relevance` so the two can be compared. -/
def specRelevanceScore (msg : String) (e : EntitySet) (p : Product) : Nat :=
  let wordPts := ((pyWords (pyLower msg)).filter
      (fun w => 2 < w.length && pyIn w (pyLower (productText p)))).length * 20
  let catPts := if e.category.any (fun c => pyLower c == pyLower p.category) then 40 else 0
  let maxPts := if e.maxPrice.any (fun m => p.price ≤ m) then 30 else 0
  let minPts := if e.minPrice.any (fun m => m ≤ p.price) then 20 else 0
  let brandPts := if e.brand.any (fun b => pyIn (pyLower b) (pyLower p.name)) then 50 else 0
  min (wordPts + catPts + maxPts + minPts + brandPts + p.ratingTenths) 100

/-! ## Stable descending sort, as Python `list.sort(key=…, reverse=True)` -/

/-- Strict lexicographic comparison of sort keys. -/
def keyLtB (a b : Nat × Nat) : Bool := a.1 < b.1 || (a.1 == b.1 && a.2 < b.2)

/-- Insert `x` after every element whose key is ≥ its own and before the
first strictly smaller one. -/
def insertDescBy (key : α → Nat × Nat) (x : α) : List α → List α
  | [] => [x]
  | y :: ys => if keyLtB (key y) (key x) then x :: y :: ys else y :: insertDescBy key x ys

/-- Stable descending sort: elements are taken left to right, each placed
behind all earlier elements of equal key — exactly the order Python's stable
`list.sort(key=…, reverse=True)` produces. -/
def pySortDescBy (key : α → Nat × Nat) (l : List α) : List α :=
  l.foldl (fun acc x => insertDescBy key x acc) []

/-! ## Product search (`handle_product_search` fallback branch, `app.py:355`,
and `basic_product_search`, `app.py:453`) -/

/-- The fallback branch of `handle_product_search` (taken when the external
model is unconfigured): keep catalog products whose relevance exceeds 0.3 and
sort them by `(relevance_score, rating)` descending. -/
def handle_product_search_fallback (msg : String) (e : EntitySet) (catalog : List Product) : List ScoredProduct :=
  let matched := catalog.filterMap (fun p =>
    let s := calculate_product_relevance msg p e
    if 30 < s then some ⟨p, s⟩ else none)
  pySortDescBy (fun sp => (sp.score, sp.product.ratingTenths)) matched

/-- The combined product text built at `app.py:465` (name, description,
category, tags). -/
def basicCombinedText (p : Product) : String :=
  p.name ++ " " ++ p.description ++ " " ++ p.category ++ " " ++ joinSpace p.tags

/-- `basic_product_search`: phone / laptop / headphone buckets checked in that
order against the query; a bucket hit scores 1.0 when the product text also
matches (phones additionally need an explicit phone word), otherwise generic
0.4-per-word scoring; +0.3 category-name bonus; keep score > 0.3, store the
clamped score, sort descending by score (stable), cap at 10. -/
def basic_product_search (msg : String) (catalog : List Product) : List ScoredProduct :=
  let ul := pyLower msg
  let matched := catalog.filterMap (fun p =>
    let text := pyLower (basicCombinedText p)
    let score :=
      if phone_keywords.any (fun k => pyIn k ul) then
        if (phone_keywords.any (fun k => pyIn k text) || pyIn "electronics" (pyLower p.category)) &&
           (["iphone", "galaxy", "smartphone", "mobile"].any (fun w => pyIn w text)) then 100 else 0
      else if laptop_keywords.any (fun k => pyIn k ul) then
        if laptop_keywords.any (fun k => pyIn k text) then 100 else 0
      else if headphone_keywords.any (fun k => pyIn k ul) then
        if headphone_keywords.any (fun k => pyIn k text) then 100 else 0
      else
        40 * ((pyWords ul).filter (fun w => 2 < w.length && pyIn w text)).length
    let score := score + (if (pyWords ul).any (fun w => pyIn w (pyLower p.category)) then 30 else 0)
    if 30 < score then some ⟨p, min score 100⟩ else none)
  (pySortDescBy (fun sp => (sp.score, 0)) matched).take 10

/-! ## Cart operations (`handle_add_to_cart`, `app.py:625`, and
`identify_product_from_message`, `app.py:721`) -/

/-- `identify_product_from_message`: first catalog product whose raw id occurs
in the raw message; otherwise the best fractional word-overlap match against
product names, kept only above the 0.3 threshold.  The fraction
`matching/total` is compared by cross-multiplication, which is exact (every
catalog product name is non-empty, so no division by zero occurs). -/
def identify_product_from_message (msg : String) (catalog : List Product) : Option Product :=
  match catalog.find? (fun p => pyIn p.id msg) with
  | some p => some p
  | none =>
    let ml := pyLower msg
    (catalog.foldl (fun (acc : Option Product × Nat × Nat) p =>
        let ws := pyWords (pyLower p.name)
        let n := (ws.filter (fun w => pyIn w ml)).length
        let d := ws.length
        if acc.2.1 * d < n * acc.2.2 && 3 * d < 10 * n then (some p, n, d) else acc)
      (none, 0, 1)).1

/-- The cart entry appended at `app.py:643` (quantity 1). -/
def cartItemOf (p : Product) : CartItem := ⟨p.id, p.name, p.price, p.imageUrl, p.category, 1⟩

/-- Increment the quantity of the first cart entry with the given id — the
entry Python's `next(...)` finds at `app.py:636`. -/
def incrementFirst : List CartItem → String → List CartItem
  | [], _ => []
  | it :: rest, pid =>
    if it.id == pid then { it with quantity := it.quantity + 1 } :: rest
    else it :: incrementFirst rest pid

/-- The cart mutation of `handle_add_to_cart` (`app.py:636`–`651`):
increment-or-insert. -/
def addProductToCart (cart : List CartItem) (p : Product) : List CartItem :=
  if cart.any (fun it => it.id == p.id) then incrementFirst cart p.id
  else cart ++ [cartItemOf p]

/-! ## Recommendation Generator (`generate_smart_recommendations`,
`app.py:753`) -/

/-- Deduplication by product id with a `seen` set, preserving first-seen
order (`app.py:824`–`829`). -/
def dedupByIdAux (seen : List String) : List Recommendation → List Recommendation
  | [] => []
  | r :: rest =>
    if seen.contains r.product.id then dedupByIdAux seen rest
    else r :: dedupByIdAux (r.product.id :: seen) rest

/-- Complementary pass (`app.py:784`–`796`): first product-type key of the
category's rule table that occurs in the added product's name; for each of
its complement keywords, every catalog product (other than the added one)
whose name or description contains the keyword. -/
def complementaryPass (added : Product) (allProducts : List Product) : List Recommendation :=
  match complementary_rules.find? (fun r => r.1 == added.category) with
  | none => []
  | some cr =>
    match cr.2.find? (fun t => pyIn t.1 (pyLower added.name)) with
    | none => []
    | some tc =>
      tc.2.flatMap (fun c =>
        (allProducts.filter (fun p =>
          (pyIn c (pyLower p.name) || pyIn c (pyLower p.description)) && p.id != added.id)).map
        (fun p => ⟨p, "Perfect companion for your " ++ added.name⟩))

/-- Same-category pass (`app.py:799`–`808`): up to 2 other products of the
same category priced at most 1.5× the added product's price (compared
exactly as `2·price ≤ 3·added.price`). -/
def sameCategoryPass (added : Product) (allProducts : List Product) : List Recommendation :=
  ((allProducts.filter (fun p =>
      p.category == added.category && p.id != added.id && 2 * p.price ≤ 3 * added.price)).take 2).map
    (fun p => ⟨p, "Another great " ++ pyLower added.category ++ " option"⟩)

/-- Cross-category pass (`app.py:811`–`821`): when the cart spans at least 2
distinct categories, the first catalog product outside all cart categories
with rating ≥ 4.0. -/
def crossCategoryPass (cart : List CartItem) (allProducts : List Product) : List Recommendation :=
  let cartCategories := cart.map (fun it => it.category)
  if 2 ≤ cartCategories.dedup.length then
    match allProducts.filter (fun p => !(cartCategories.contains p.category) && 40 ≤ p.ratingTenths) with
    | [] => []
    | q :: _ => [⟨q, "Customers who bought similar items also purchased this"⟩]
  else []

/-- `generate_smart_recommendations` (`app.py:753`–`831`): the three passes in
order, deduplicated by product id, truncated to 5. -/
def generate_smart_recommendations (added : Product) (cart : List CartItem) (allProducts : List Product) : List Recommendation :=
  (dedupByIdAux []
    (complementaryPass added allProducts ++ sameCategoryPass added allProducts ++
      crossCategoryPass cart allProducts)).take 5

/-! ## Dispatch Policy (`generate_conversational_response`, `app.py:209`) -/

/-- What the if/elif dispatch chain does with a classified intent:
`handled f` means the branch calls the handler `f`, which `app.py` defines;
`undefinedCall f` means the branch calls a function `f` that is defined
nowhere in `app.py`, so the call raises `NameError` and the exception escapes
`generate_conversational_response`. -/
inductive DispatchResult where
  | handled : String → DispatchResult
  | undefinedCall : String → DispatchResult
deriving DecidableEq, Repr

/-- The dispatch chain of `generate_conversational_response`
(`app.py:218`–`235`).  `handle_product_details`, `handle_recommendations`,
`handle_price_inquiry` and `handle_product_comparison` are referenced at
`app.py:227`/`229`/`231`/`233` but never defined in the file. -/
def dispatchBranch (msg : String) : DispatchResult :=
  let t := (analyze_user_intent msg).type
  if t == "greeting" then .handled "handle_greeting"
  else if t == "product_search" then .handled "handle_product_search"
  else if t == "add_to_cart" then .handled "handle_add_to_cart"
  else if t == "cart_view" then .handled "handle_cart_view"
  else if t == "product_details" then .undefinedCall "handle_product_details"
  else if t == "recommendations" then .undefinedCall "handle_recommendations"
  else if t == "price_inquiry" then .undefinedCall "handle_price_inquiry"
  else if t == "compare" then .undefinedCall "handle_product_comparison"
  else .handled "handle_general_query"

/-- The effect of one chat turn on the global `cart_items` list: only the
`add_to_cart` branch mutates it, and only when a product resolves
(`app.py:625`–`651`); every other branch — including the four that raise
`NameError` before reaching any mutation — leaves the cart unchanged. -/
def chatCartAfter (msg : String) (cart : List CartItem) (catalog : List Product) : List CartItem :=
  if (analyze_user_intent msg).type == "add_to_cart" then
    match identify_product_from_message msg catalog with
    | some p => addProductToCart cart p
    | none => cart
  else cart

/-! ## Generic lemmas about the embedded combinators -/

theorem find?_first {α : Type} (p : α → Bool) (l : List α) :
    ∀ (i : Nat) (h : i < l.length),
      p (l.get ⟨i, h⟩) = true →
      (∀ (j : Nat) (hj : j < l.length), j < i → p (l.get ⟨j, hj⟩) = false) →
      l.find? p = some (l.get ⟨i, h⟩) := by
  induction l with
  | nil => intro i h; exact absurd h (by simp)
  | cons x xs ih =>
    intro i h hp hprev
    cases i with
    | zero =>
      exact List.find?_cons_of_pos _ hp
    | succ n =>
      have hx : p x = false := hprev 0 (by simp) (Nat.succ_pos n)
      rw [List.find?_cons_of_neg _ (by simp [hx])]
      exact ih n (Nat.lt_of_succ_lt_succ (by simpa using h)) hp
        (fun j hj hlt => hprev (j + 1) (by simpa using hj) (by omega))

theorem keyLtB_iff (a b : Nat × Nat) :
    keyLtB a b = true ↔ a.1 < b.1 ∨ (a.1 = b.1 ∧ a.2 < b.2) := by
  simp [keyLtB]

theorem keyLtB_false_iff (a b : Nat × Nat) :
    keyLtB a b = false ↔ ¬ (a.1 < b.1 ∨ (a.1 = b.1 ∧ a.2 < b.2)) := by
  rw [Bool.eq_false_iff, Ne, keyLtB_iff]

theorem keyLtB_flip (x y : Nat × Nat) (h : keyLtB y x = true) : keyLtB x y = false := by
  rw [keyLtB_iff] at h; rw [keyLtB_false_iff]; omega

theorem keyLtB_glue (x y z : Nat × Nat) (h1 : keyLtB y x = true)
    (h2 : keyLtB y z = false) : keyLtB x z = false := by
  rw [keyLtB_iff] at h1; rw [keyLtB_false_iff] at h2 ⊢; omega

theorem mem_insertDescBy {α : Type} (key : α → Nat × Nat) (x a : α) (l : List α) :
    a ∈ insertDescBy key x l ↔ a = x ∨ a ∈ l := by
  induction l with
  | nil => simp [insertDescBy]
  | cons y ys ih =>
    by_cases hc : keyLtB (key y) (key x) = true
    · simp [insertDescBy, hc]
    · simp only [insertDescBy, if_neg hc, List.mem_cons, ih]
      tauto

theorem pairwise_insertDescBy {α : Type} (key : α → Nat × Nat) (x : α) (l : List α)
    (h : l.Pairwise (fun a b => keyLtB (key a) (key b) = false)) :
    (insertDescBy key x l).Pairwise (fun a b => keyLtB (key a) (key b) = false) := by
  induction l with
  | nil => simp [insertDescBy]
  | cons y ys ih =>
    rw [List.pairwise_cons] at h
    obtain ⟨hy, hys⟩ := h
    by_cases hc : keyLtB (key y) (key x) = true
    · rw [insertDescBy, if_pos hc]
      refine List.pairwise_cons.mpr ⟨?_, List.pairwise_cons.mpr ⟨hy, hys⟩⟩
      intro z hz
      rcases List.mem_cons.mp hz with rfl | hz
      · exact keyLtB_flip _ _ hc
      · exact keyLtB_glue _ _ _ hc (hy z hz)
    · rw [insertDescBy, if_neg hc]
      refine List.pairwise_cons.mpr ⟨?_, ih hys⟩
      intro z hz
      rcases (mem_insertDescBy key x z ys).mp hz with rfl | hz
      · exact Bool.eq_false_iff.mpr hc
      · exact hy z hz

theorem pairwise_foldl_insertDescBy {α : Type} (key : α → Nat × Nat) (l : List α) :
    ∀ acc : List α, acc.Pairwise (fun a b => keyLtB (key a) (key b) = false) →
      (l.foldl (fun acc x => insertDescBy key x acc) acc).Pairwise
        (fun a b => keyLtB (key a) (key b) = false) := by
  induction l with
  | nil => intro acc h; exact h
  | cons x xs ih => intro acc h; exact ih _ (pairwise_insertDescBy key x acc h)

/-- `pySortDescBy` output is sorted: every element's key is lexicographically
≥ that of every later element. -/
theorem pairwise_pySortDescBy {α : Type} (key : α → Nat × Nat) (l : List α) :
    (pySortDescBy key l).Pairwise (fun a b => keyLtB (key a) (key b) = false) :=
  pairwise_foldl_insertDescBy key l [] List.Pairwise.nil

theorem mem_foldl_insertDescBy {α : Type} (key : α → Nat × Nat) (l : List α) :
    ∀ (acc : List α) (a : α),
      a ∈ l.foldl (fun acc x => insertDescBy key x acc) acc ↔ a ∈ acc ∨ a ∈ l := by
  induction l with
  | nil => intro acc a; simp
  | cons x xs ih =>
    intro acc a
    rw [List.foldl_cons, ih, mem_insertDescBy]
    simp only [List.mem_cons]
    tauto

/-- `pySortDescBy` is a permutation-style sort: membership is preserved. -/
theorem mem_pySortDescBy {α : Type} (key : α → Nat × Nat) (l : List α) (a : α) :
    a ∈ pySortDescBy key l ↔ a ∈ l := by
  rw [pySortDescBy, mem_foldl_insertDescBy]
  simp

theorem length_filter_mono {α : Type} (p q : α → Bool) (l : List α)
    (h : ∀ a ∈ l, p a = true → q a = true) :
    (l.filter p).length ≤ (l.filter q).length := by
  induction l with
  | nil => simp
  | cons x xs ih =>
    have ihx := ih (fun a ha => h a (List.mem_cons_of_mem x ha))
    by_cases hp : p x = true
    · rw [List.filter_cons_of_pos hp, List.filter_cons_of_pos (h x (List.mem_cons_self x xs) hp)]
      simpa using ihx
    · rw [List.filter_cons_of_neg (by simpa using hp)]
      refine ihx.trans ?_
      by_cases hq : q x = true
      · rw [List.filter_cons_of_pos hq]; simp
      · rw [List.filter_cons_of_neg (by simpa using hq)]

theorem dedupByIdAux_sublist (seen : List String) (l : List Recommendation) :
    (dedupByIdAux seen l).Sublist l := by
  induction l generalizing seen with
  | nil => simp [dedupByIdAux]
  | cons r rest ih =>
    rw [dedupByIdAux]
    by_cases hc : seen.contains r.product.id = true
    · rw [if_pos hc]; exact (ih seen).cons r
    · rw [if_neg hc]; exact (ih _).cons₂ r

theorem dedupByIdAux_spec (l : List Recommendation) :
    ∀ seen : List String,
      ((dedupByIdAux seen l).map (fun r => r.product.id)).Nodup ∧
      ∀ r ∈ dedupByIdAux seen l, seen.contains r.product.id = false := by
  induction l with
  | nil => intro seen; simp [dedupByIdAux]
  | cons r rest ih =>
    intro seen
    rw [dedupByIdAux]
    by_cases hc : seen.contains r.product.id = true
    · rw [if_pos hc]; exact ih seen
    · rw [if_neg hc]
      obtain ⟨ihnodup, ihseen⟩ := ih (r.product.id :: seen)
      refine ⟨?_, ?_⟩
      · rw [List.map_cons, List.nodup_cons]
        refine ⟨?_, ihnodup⟩
        intro hmem
        obtain ⟨s, hs, hid⟩ := List.mem_map.mp hmem
        have := ihseen s hs
        rw [← hid] at this
        simp at this
      · intro s hs
        rcases List.mem_cons.mp hs with rfl | hs
        · exact Bool.eq_false_iff.mpr hc
        · have := ihseen s hs
          simp only [List.contains_cons, Bool.or_eq_false_iff] at this
          exact this.2

/-! ## Claims -/

/-- C1: the claim says dispatching the `product_details`, `recommendations`,
`price_inquiry` and `compare` intents produces a degraded-but-valid reply;
in the code those four branches call functions that `app.py` never defines,
so each of these utterances makes `generate_conversational_response` raise
`NameError`, which escapes to the caller.  This theorem evaluates the
dispatch chain at four failing inputs, one per broken intent. -/
theorem c1_undefined_handler_calls :
    dispatchBranch "tell me more about iphone" = .undefinedCall "handle_product_details" ∧
    dispatchBranch "recommend a gift" = .undefinedCall "handle_recommendations" ∧
    dispatchBranch "price of milk" = .undefinedCall "handle_price_inquiry" ∧
    dispatchBranch "compare iphone vs samsung" = .undefinedCall "handle_product_comparison" := by
  decide

/-- C3: the claim says "add Sony headphones to cart" resolves the Sony
product and grows the cart from 0 to 1 items.  In the code the utterance
contains the `cart_view` pattern "cart" while none of the `add_to_cart`
patterns ("add to cart", "buy", …) occur in it, so the turn is routed to
`handle_cart_view` and the cart stays empty — even though
`identify_product_from_message` would have resolved the Sony product. -/
theorem c3_add_phrase_routes_to_cart_view :
    (analyze_user_intent "add Sony headphones to cart").type = "cart_view" ∧
    dispatchBranch "add Sony headphones to cart" = .handled "handle_cart_view" ∧
    chatCartAfter "add Sony headphones to cart" [] mockProducts = [] ∧
    identify_product_from_message "add Sony headphones to cart" mockProducts =
      some sonyHeadphones := by
  decide

/-- C2 (counterexample): intent classification of
"show me wireless headphones under 3000" yields `price_inquiry` (the pattern
"under" matches, and `price_inquiry` precedes `product_search` in the table),
not `product_search` as the claim states. -/
theorem c2_intent_counterexample :
    (analyze_user_intent "show me wireless headphones under 3000").type = "price_inquiry" ∧
    (analyze_user_intent "show me wireless headphones under 3000").type ≠ "product_search" := by
  decide

/-- C6 (counterexample): for the added product Sony WH-CH720N and a cart
snapshot holding a Footwear and a Clothing item, the cross-category pass
picks the first catalog product outside the cart categories with rating
≥ 4.0 — which is the added Sony product itself, so the Recommendation
Generator returns the added product, contradicting the claim. -/
theorem c6_returns_added_product :
    ((generate_smart_recommendations sonyHeadphones
        [⟨"prod_011", "Nike Air Max 270", 8995,
          "https://images.unsplash.com/photo-1542291026-7eec264c27ff?w=300", "Footwear", 1⟩,
         ⟨"prod_016", "Cotton T-Shirt", 599,
          "https://images.unsplash.com/photo-1521572163474-6864f9cf17ab?w=300", "Clothing", 1⟩]
        mockProducts).any (fun r => r.product == sonyHeadphones)) = true := by
  decide

/-- C7: with the external capability unavailable, the query
"laptop for gaming" activates the laptop bucket of `basic_product_search`
(a laptop keyword occurs in the query, no phone keyword does); every
returned product's combined name/description/category/tags text contains a
laptop keyword and has score > 0.3; the result is sorted by score
descending; and it holds at most 10 products. -/
theorem c7_basic_search_laptop_bucket :
    (laptop_keywords.any (fun k => pyIn k (pyLower "laptop for gaming")) = true) ∧
    (phone_keywords.any (fun k => pyIn k (pyLower "laptop for gaming")) = false) ∧
    ((basic_product_search "laptop for gaming" mockProducts).all
      (fun sp =>
        laptop_keywords.any (fun k => pyIn k (pyLower (basicCombinedText sp.product))) &&
        decide (30 < sp.score)) = true) ∧
    (basic_product_search "laptop for gaming" mockProducts).Pairwise
      (fun a b => b.score ≤ a.score) ∧
    (basic_product_search "laptop for gaming" mockProducts).length ≤ 10 := by
  decide

/-- C4: the Intent Classifier lower-cases and strips the text, tests the
ordered table by substring containment, returns the first matching label
with confidence 0.8, and defaults to `product_search` with confidence 0.6
when no entry matches. -/
theorem c4_classifier_first_match (msg : String) :
    ((∀ entry ∈ intent_patterns, intentMatches (pyStrip (pyLower msg)) entry = false) →
      analyze_user_intent msg = ⟨"product_search", 60, extract_entities msg⟩) ∧
    (∀ (i : Nat) (h : i < intent_patterns.length),
      intentMatches (pyStrip (pyLower msg)) (intent_patterns.get ⟨i, h⟩) = true →
      (∀ (j : Nat) (hj : j < intent_patterns.length), j < i →
        intentMatches (pyStrip (pyLower msg)) (intent_patterns.get ⟨j, hj⟩) = false) →
      analyze_user_intent msg =
        ⟨(intent_patterns.get ⟨i, h⟩).1, 80, extract_entities msg⟩) := by
  constructor
  · intro hnone
    have hfind : intent_patterns.find? (intentMatches (pyStrip (pyLower msg))) = none :=
      List.find?_eq_none.mpr (fun x hx => by simp [hnone x hx])
    simp [analyze_user_intent, hfind]
  · intro i h hp hprev
    have hfind := find?_first (intentMatches (pyStrip (pyLower msg))) intent_patterns i h hp hprev
    simp [analyze_user_intent, hfind]

/-- Witness for C4: "hello" matches the first table entry (greeting). -/
theorem c4_classifier_first_match_witness :
    analyze_user_intent "hello" = ⟨"greeting", 80, extract_entities "hello"⟩ :=
  (c4_classifier_first_match "hello").2 0 (by decide) (by decide)
    (fun j _ hlt => absurd hlt (Nat.not_lt_zero j))

/-- C9: any utterance whose lower-cased stripped text contains "hi" anywhere
— also inside another word — is classified as `greeting` with confidence
0.8, because "hi" is the first pattern of the first table entry and matching
is substring containment. -/
theorem c9_hi_substring_is_greeting (msg : String)
    (h : pyIn "hi" (pyStrip (pyLower msg)) = true) :
    analyze_user_intent msg = ⟨"greeting", 80, extract_entities msg⟩ := by
  have hmatch : intentMatches (pyStrip (pyLower msg))
      ("greeting", ["hi", "hello", "hey", "good morning", "good evening", "good afternoon"]) =
        true := by
    simp [intentMatches, h]
  simp [analyze_user_intent, intent_patterns, List.find?_cons_of_pos _ hmatch]

/-- Witness for C9: "which is best" contains "hi" inside "which", so it is
classified as greeting even though the compare pattern "which is best" also
matches. -/
theorem c9_hi_substring_is_greeting_witness :
    analyze_user_intent "which is best" =
      ⟨"greeting", 80, extract_entities "which is best"⟩ :=
  c9_hi_substring_is_greeting "which is best" (by decide)

theorem incrementFirst_map_id (cart : List CartItem) (pid : String) :
    (incrementFirst cart pid).map (fun it => it.id) = cart.map (fun it => it.id) := by
  induction cart with
  | nil => rfl
  | cons it rest ih =>
    rw [incrementFirst]
    by_cases hid : (it.id == pid) = true
    · rw [if_pos hid]; rfl
    · rw [if_neg hid, List.map_cons, List.map_cons, ih]

theorem incrementFirst_quantity_ge (cart : List CartItem) (pid : String)
    (hq : ∀ it ∈ cart, 1 ≤ it.quantity) :
    ∀ it ∈ incrementFirst cart pid, 1 ≤ it.quantity := by
  induction cart with
  | nil => intro it hit; simp [incrementFirst] at hit
  | cons x rest ih =>
    intro it hit
    rw [incrementFirst] at hit
    by_cases hid : (x.id == pid) = true
    · rw [if_pos hid] at hit
      rcases List.mem_cons.mp hit with rfl | hit
      · exact Nat.le_trans (hq x (List.mem_cons_self x rest)) (Nat.le_succ _)
      · exact hq it (List.mem_cons_of_mem x hit)
    · rw [if_neg hid] at hit
      rcases List.mem_cons.mp hit with rfl | hit
      · exact hq it (List.mem_cons_self it rest)
      · exact ih (fun i hi => hq i (List.mem_cons_of_mem x hi)) it hit

theorem incrementFirst_sum (cart : List CartItem) (pid : String)
    (h : cart.any (fun it => it.id == pid) = true) :
    ((incrementFirst cart pid).map (fun it => it.quantity)).sum =
      (cart.map (fun it => it.quantity)).sum + 1 := by
  induction cart with
  | nil => simp at h
  | cons x rest ih =>
    rw [incrementFirst]
    by_cases hid : (x.id == pid) = true
    · rw [if_pos hid]; simp; omega
    · rw [if_neg hid]
      have hrest : rest.any (fun it => it.id == pid) = true := by
        rcases List.any_eq_true.mp h with ⟨it, hit, hp⟩
        rcases List.mem_cons.mp hit with rfl | hit
        · exact absurd hp hid
        · exact List.any_eq_true.mpr ⟨it, hit, hp⟩
      simp only [List.map_cons, List.sum_cons, ih hrest]
      omega

/-- C10: the chat add-to-cart mutation either increments the (unique)
existing entry's quantity by exactly 1 or appends one new entry with
quantity 1 — the total quantity always grows by exactly 1 — and it
preserves the invariants "every quantity ≥ 1" and "pairwise-distinct
product ids". -/
theorem c10_add_to_cart_invariants (cart : List CartItem) (p : Product)
    (hq : ∀ it ∈ cart, 1 ≤ it.quantity)
    (hids : (cart.map (fun it => it.id)).Nodup) :
    (∀ it ∈ addProductToCart cart p, 1 ≤ it.quantity) ∧
    ((addProductToCart cart p).map (fun it => it.id)).Nodup ∧
    ((addProductToCart cart p).map (fun it => it.quantity)).sum =
      (cart.map (fun it => it.quantity)).sum + 1 := by
  by_cases hmem : cart.any (fun it => it.id == p.id) = true
  · rw [addProductToCart, if_pos hmem]
    exact ⟨incrementFirst_quantity_ge cart p.id hq,
      (incrementFirst_map_id cart p.id).symm ▸ hids,
      incrementFirst_sum cart p.id hmem⟩
  · rw [addProductToCart, if_neg hmem]
    have hnot : ∀ it ∈ cart, ¬ (it.id == p.id) = true := by
      intro it hit hbeq
      exact hmem (List.any_eq_true.mpr ⟨it, hit, hbeq⟩)
    refine ⟨?_, ?_, ?_⟩
    · intro it hit
      rcases List.mem_append.mp hit with hit | hit
      · exact hq it hit
      · rcases List.mem_singleton.mp hit with rfl
        exact Nat.le_refl 1
    · rw [List.map_append]
      rw [List.nodup_append]
      refine ⟨hids, List.nodup_singleton _, ?_⟩
      intro a ha hb
      rcases List.mem_map.mp ha with ⟨it, hit, rfl⟩
      rcases List.mem_singleton.mp hb with heq
      simp only [cartItemOf] at heq
      exact hnot it hit (by simp [heq])
    · simp [cartItemOf]

/-- Witness for C10: adding the Sony product to a cart already holding it
increments its quantity. -/
theorem c10_add_to_cart_invariants_witness :
    (∀ it ∈ addProductToCart [cartItemOf sonyHeadphones] sonyHeadphones, 1 ≤ it.quantity) ∧
    ((addProductToCart [cartItemOf sonyHeadphones] sonyHeadphones).map
      (fun it => it.id)).Nodup ∧
    ((addProductToCart [cartItemOf sonyHeadphones] sonyHeadphones).map
      (fun it => it.quantity)).sum =
      (([cartItemOf sonyHeadphones]).map (fun it => it.quantity)).sum + 1 :=
  c10_add_to_cart_invariants [cartItemOf sonyHeadphones] sonyHeadphones
    (by decide) (by decide)

/-- C2 (amended): for "show me wireless headphones under 3000", entity
extraction yields category Electronics and max price 3000; intent
classification yields `price_inquiry` with confidence 0.8 (rather than the
claimed `product_search`, since the pattern "under" matches first); Sony
WH-CH720N scores 1.0 for this query, strictly above every catalog product
priced ≥ 5000, so the scorer ranks it above each of them. -/
theorem c2_scenario_amended :
    extract_entities "show me wireless headphones under 3000" =
      ⟨some "Electronics", none, some 3000, none⟩ ∧
    analyze_user_intent "show me wireless headphones under 3000" =
      ⟨"price_inquiry", 80, ⟨some "Electronics", none, some 3000, none⟩⟩ ∧
    calculate_product_relevance "show me wireless headphones under 3000" sonyHeadphones
      ⟨some "Electronics", none, some 3000, none⟩ = 100 ∧
    (∀ p ∈ mockProducts, 5000 ≤ p.price →
      calculate_product_relevance "show me wireless headphones under 3000" p
          ⟨some "Electronics", none, some 3000, none⟩ <
        calculate_product_relevance "show me wireless headphones under 3000" sonyHeadphones
          ⟨some "Electronics", none, some 3000, none⟩) := by
  decide

/-- Witness for C2 (amended): the iPhone (price 79999 ≥ 5000) scores
strictly below the Sony headphones for this query. -/
theorem c2_scenario_amended_witness :
    appleIphone15 ∈ mockProducts ∧ 5000 ≤ appleIphone15.price ∧
    calculate_product_relevance "show me wireless headphones under 3000" appleIphone15
        ⟨some "Electronics", none, some 3000, none⟩ <
      calculate_product_relevance "show me wireless headphones under 3000" sonyHeadphones
        ⟨some "Electronics", none, some 3000, none⟩ :=
  ⟨by decide, by decide, c2_scenario_amended.2.2.2 appleIphone15 (by decide) (by decide)⟩

/-- C5: `calculate_product_relevance` computes exactly the additive clamped
score the spec describes (`specRelevanceScore`); every product surviving in
the fallback search results carries that score and scores strictly more
than 0.3 (so products scoring ≤ 0.3 never appear); and the result list is
ordered by (score desc, rating desc). -/
theorem c5_scorer_spec_and_results (msg : String) (e : EntitySet) (catalog : List Product) :
    (∀ p : Product, calculate_product_relevance msg p e = specRelevanceScore msg e p) ∧
    (∀ sp ∈ handle_product_search_fallback msg e catalog,
      30 < sp.score ∧ sp.score = calculate_product_relevance msg sp.product e) ∧
    (handle_product_search_fallback msg e catalog).Pairwise
      (fun a b =>
        keyLtB (a.score, a.product.ratingTenths) (b.score, b.product.ratingTenths) = false) := by
  refine ⟨?_, ?_, ?_⟩
  · intro p
    rcases e with ⟨ec, emin, emax, eb⟩
    cases ec <;> cases emin <;> cases emax <;> cases eb <;>
      simp [calculate_product_relevance, specRelevanceScore, Nat.mul_comm]
  · intro sp hsp
    simp only [handle_product_search_fallback] at hsp
    rw [mem_pySortDescBy] at hsp
    obtain ⟨p, _, hfp⟩ := List.mem_filterMap.mp hsp
    split at hfp
    · rename_i h30
      rcases Option.some.inj hfp with rfl
      exact ⟨h30, rfl⟩
    · exact absurd hfp (by simp)
  · simp only [handle_product_search_fallback]
    exact pairwise_pySortDescBy _ _

/-- Witness for C5: with a one-product catalog, the Sony headphones survive
the query "headphones" with score 0.65. -/
theorem c5_scorer_spec_and_results_witness :
    30 < (⟨sonyHeadphones, 65⟩ : ScoredProduct).score ∧
    (⟨sonyHeadphones, 65⟩ : ScoredProduct).score =
      calculate_product_relevance "headphones"
        (⟨sonyHeadphones, 65⟩ : ScoredProduct).product ⟨none, none, none, none⟩ :=
  (c5_scorer_spec_and_results "headphones" ⟨none, none, none, none⟩ [sonyHeadphones]).2.1
    ⟨sonyHeadphones, 65⟩ (by decide)

/-- C8: the relevance score lies in [0, 1] after clamping (in hundredths:
between 0 and 100), and is monotone — replacing a product by one with the
same name, category, price and rating whose text matches a superset of the
query words never decreases the score. -/
theorem c8_score_bounds_and_monotone (msg : String) (e : EntitySet) (p q : Product)
    (hname : q.name = p.name) (hcat : q.category = p.category)
    (hprice : q.price = p.price) (hrating : q.ratingTenths = p.ratingTenths)
    (hwords : ∀ w ∈ pyWords (pyLower msg),
      (2 < w.length && pyIn w (pyLower (productText p))) = true →
      (2 < w.length && pyIn w (pyLower (productText q))) = true) :
    0 ≤ calculate_product_relevance msg p e ∧
    calculate_product_relevance msg p e ≤ 100 ∧
    calculate_product_relevance msg p e ≤ calculate_product_relevance msg q e := by
  refine ⟨Nat.zero_le _, Nat.min_le_right _ _, ?_⟩
  have hlen : ((pyWords (pyLower msg)).filter
        (fun w => 2 < w.length && pyIn w (pyLower (productText p)))).length ≤
      ((pyWords (pyLower msg)).filter
        (fun w => 2 < w.length && pyIn w (pyLower (productText q)))).length :=
    length_filter_mono _ _ _ hwords
  simp only [calculate_product_relevance, hname, hcat, hprice, hrating]
  exact min_le_min (by omega) (Nat.le_refl 100)

def monoWitnessBase : Product :=
  ⟨"w1", "Plain Speaker", 999, "Electronics", "", "Basic speaker", [], 10, 40⟩

def monoWitnessExtended : Product :=
  ⟨"w1", "Plain Speaker", 999, "Electronics", "", "Basic speaker wireless", [], 10, 40⟩

/-- Witness for C8: appending " wireless" to the description lets one more
query word match; the score does not decrease (and is within bounds). -/
theorem c8_score_bounds_and_monotone_witness :
    0 ≤ calculate_product_relevance "wireless headphones" monoWitnessBase
        ⟨none, none, none, none⟩ ∧
    calculate_product_relevance "wireless headphones" monoWitnessBase
        ⟨none, none, none, none⟩ ≤ 100 ∧
    calculate_product_relevance "wireless headphones" monoWitnessBase
        ⟨none, none, none, none⟩ ≤
      calculate_product_relevance "wireless headphones" monoWitnessExtended
        ⟨none, none, none, none⟩ :=
  c8_score_bounds_and_monotone "wireless headphones" ⟨none, none, none, none⟩
    monoWitnessBase monoWitnessExtended rfl rfl rfl rfl (by decide)

theorem complementaryPass_id_ne (added : Product) (allProducts : List Product) :
    ∀ r ∈ complementaryPass added allProducts, (r.product.id == added.id) = false := by
  intro r hr
  rw [complementaryPass] at hr
  split at hr
  · exact absurd hr (by simp)
  · split at hr
    · exact absurd hr (by simp)
    · obtain ⟨c, _, hmem⟩ := List.mem_flatMap.mp hr
      obtain ⟨p, hp, rfl⟩ := List.mem_map.mp hmem
      have hcond := (List.mem_filter.mp hp).2
      rcases Bool.and_eq_true_iff.mp hcond with ⟨_, hne⟩
      simpa using hne

theorem sameCategoryPass_id_ne (added : Product) (allProducts : List Product) :
    ∀ r ∈ sameCategoryPass added allProducts, (r.product.id == added.id) = false := by
  intro r hr
  rw [sameCategoryPass] at hr
  obtain ⟨p, hp, rfl⟩ := List.mem_map.mp hr
  have hp2 := (List.take_sublist 2 _).subset hp
  have hcond := (List.mem_filter.mp hp2).2
  rcases Bool.and_eq_true_iff.mp hcond with ⟨hcond1, _⟩
  rcases Bool.and_eq_true_iff.mp hcond1 with ⟨_, hne⟩
  simpa using hne

theorem crossCategoryPass_not_cart_category (cart : List CartItem) (allProducts : List Product) :
    ∀ r ∈ crossCategoryPass cart allProducts,
      r.product.category ∉ cart.map (fun it => it.category) := by
  intro r hr
  simp only [crossCategoryPass] at hr
  split at hr
  · split at hr
    · exact absurd hr (by simp)
    · rename_i q rest heq
      rcases List.mem_singleton.mp hr with rfl
      have hqmem : q ∈ List.filter
          (fun p => !((cart.map (fun it => it.category)).contains p.category) &&
            40 ≤ p.ratingTenths) allProducts := by
        rw [heq]; exact List.mem_cons_self _ _
      have hcond := (List.mem_filter.mp hqmem).2
      rcases Bool.and_eq_true_iff.mp hcond with ⟨hnc, _⟩
      have hfalse : (cart.map (fun it => it.category)).contains q.category = false := by
        simpa using hnc
      intro hmem
      rw [List.contains_eq_any_beq] at hfalse
      have := List.any_eq_false.mp hfalse q.category hmem
      simp at this
  · exact absurd hr (by simp)

/-- C6 (amended): the Recommendation Generator never returns more than 5
items and never returns two items with the same product id; and whenever
the added product's category appears among the cart snapshot's categories —
as always holds for the call in `handle_add_to_cart`, which passes the cart
after insertion — it never returns the added product itself.  (For cart
snapshots not containing the added product the cross-category pass can
return it; see the counterexample.) -/
theorem c6_recommendations_amended (added : Product) (cart : List CartItem)
    (allProducts : List Product) :
    (generate_smart_recommendations added cart allProducts).length ≤ 5 ∧
    ((generate_smart_recommendations added cart allProducts).map
      (fun r => r.product.id)).Nodup ∧
    (added.category ∈ cart.map (fun it => it.category) →
      ∀ r ∈ generate_smart_recommendations added cart allProducts, r.product ≠ added) := by
  refine ⟨?_, ?_, ?_⟩
  · rw [generate_smart_recommendations, List.length_take]
    exact Nat.min_le_left _ _
  · rw [generate_smart_recommendations, List.map_take]
    exact List.Nodup.sublist (List.take_sublist 5 _) (dedupByIdAux_spec _ []).1
  · intro hcart r hr heq
    rw [generate_smart_recommendations] at hr
    have hr2 := (dedupByIdAux_sublist [] _).subset ((List.take_sublist 5 _).subset hr)
    rcases List.mem_append.mp hr2 with hr3 | hcross
    · rcases List.mem_append.mp hr3 with hcomp | hsame
      · have := complementaryPass_id_ne added allProducts r hcomp
        rw [heq] at this
        simp at this
      · have := sameCategoryPass_id_ne added allProducts r hsame
        rw [heq] at this
        simp at this
    · have := crossCategoryPass_not_cart_category cart allProducts r hcross
      rw [heq] at this
      exact this hcart

/-- Witness for C6 (amended): Sony product added with itself in the cart —
the result holds ≤ 5 items, no duplicate ids, and never the Sony product. -/
theorem c6_recommendations_amended_witness :
    (generate_smart_recommendations sonyHeadphones [cartItemOf sonyHeadphones]
      mockProducts).length ≤ 5 ∧
    ((generate_smart_recommendations sonyHeadphones [cartItemOf sonyHeadphones]
      mockProducts).map (fun r => r.product.id)).Nodup ∧
    (∀ r ∈ generate_smart_recommendations sonyHeadphones [cartItemOf sonyHeadphones]
      mockProducts, r.product ≠ sonyHeadphones) :=
  have h := c6_recommendations_amended sonyHeadphones [cartItemOf sonyHeadphones] mockProducts
  ⟨h.1, h.2.1, h.2.2 (by decide)⟩

end WalmartApp
